import Mathlib

unseal Rat.add Rat.sub Rat.mul

/-!
Verification development for the finance-api repository
(src/database_v5.py and src/api_server.py).

Shallow embedding conventions:
* SQL REAL amounts are modelled as exact rationals.
* TEXT dates (ISO strings, compared lexicographically by both SQLite and
  the Python sort) are modelled as natural numbers; the lexicographic
  order on ISO date strings is order-isomorphic to the numeric order on
  the dates they denote, and no operation inspects the digits of a date.
  CURRENT_TIMESTAMP values are likewise modelled as naturals supplied as
  an explicit parameter.
* Every table is a list of rows in insertion order; the SQLite
  AUTOINCREMENT primary key of each table is modelled by a per-table
  counter stored in the state.
* NULLable columns are `Option` fields.
* The categories, expense_categories and users tables are not modelled:
  no operation relevant to the claims reads them (category ids occur in
  line rows only as opaque `Option Nat` values).
* The UNIQUE(report_date, location_id) constraint of daily_reports is
  modelled inside create_daily_report, which returns an `Except`: the
  INSERT aborts (sqlite3.IntegrityError) and leaves the state unchanged
  when the pair is already present.  The UNIQUE name constraints of the
  catalogue tables are not modelled; omitting them only enlarges the set
  of reachable states, so invariants proved over it also hold of the
  real system.
* SQL inner joins on a primary key are modelled with `List.find?`; in
  every reachable state primary keys are duplicate-free, so this agrees
  with the relational semantics.
-/

namespace FinanceV5

/-- Account type: CHECK (account_type IN ('cash', 'bank')) in the accounts
table of database_v5.py. -/
inductive AccountType where
  | cash
  | bank
deriving DecidableEq, Repr

/-- Report status: CHECK (status IN ('open', 'closed', 'verified')) in the
daily_reports table. -/
inductive Status where
  | opened
  | closed
  | verified
deriving DecidableEq, Repr

/-- Row of the accounts table (columns relevant to the claims). -/
structure Account where
  id : Nat
  name : String
  account_type : AccountType
  is_active : Bool
deriving DecidableEq, Repr

/-- Row of the payment_methods table. -/
structure PaymentMethod where
  id : Nat
  name : String
  default_account_id : Nat
  commission_percent : ℚ
  is_visible : Bool
  is_active : Bool
  display_order : Nat
deriving DecidableEq, Repr

/-- Row of the locations table. -/
structure SalesLocation where
  id : Nat
  name : String
  address : String
  is_active : Bool
deriving DecidableEq, Repr

/-- Row of the daily_reports table. -/
structure DailyReport where
  id : Nat
  report_date : Nat
  location_id : Nat
  total_sales : ℚ
  cash_expected : Option ℚ
  cash_actual : Option ℚ
  cash_difference : Option ℚ
  cash_breakdown : Option String
  status : Status
  created_by : Option String
  closed_at : Option Nat
deriving DecidableEq, Repr

/-- Row of the report_payments table. -/
structure ReportPayment where
  id : Nat
  report_id : Nat
  payment_method_id : Nat
  account_id : Nat
  amount : ℚ
  commission_amount : ℚ
  net_amount : ℚ
deriving DecidableEq, Repr

/-- Row of the non_sales_income table. -/
structure NonSalesIncome where
  id : Nat
  report_id : Nat
  category_id : Option Nat
  account_id : Nat
  amount : ℚ
  description : String
deriving DecidableEq, Repr

/-- Row of the report_expenses table. -/
structure ReportExpense where
  id : Nat
  report_id : Nat
  category_id : Option Nat
  account_id : Nat
  amount : ℚ
  description : String
deriving DecidableEq, Repr

/-- The whole database state: one list per modelled table plus the
AUTOINCREMENT counter of each table. -/
structure DB where
  accounts : List Account
  payment_methods : List PaymentMethod
  locations : List SalesLocation
  daily_reports : List DailyReport
  report_payments : List ReportPayment
  non_sales_income : List NonSalesIncome
  report_expenses : List ReportExpense
  next_account_id : Nat
  next_method_id : Nat
  next_location_id : Nat
  next_report_id : Nat
  next_payment_id : Nat
  next_income_id : Nat
  next_expense_id : Nat
deriving DecidableEq, Repr

/-- The state produced by init_database: empty tables, counters at 1
(SQLite AUTOINCREMENT starts at 1). -/
def initDB : DB :=
  { accounts := [], payment_methods := [], locations := [],
    daily_reports := [], report_payments := [], report_expenses := [],
    non_sales_income := [],
    next_account_id := 1, next_method_id := 1, next_location_id := 1,
    next_report_id := 1, next_payment_id := 1, next_income_id := 1,
    next_expense_id := 1 }

/-- Storage-level failure (sqlite3.IntegrityError from a violated
constraint). -/
inductive StoreError where
  | integrityError
deriving DecidableEq, Repr

/-! ### database_v5.py operations (FinanceSystemV5 methods) -/

/-- FinanceSystemV5.add_account (the later definition, line 685):
INSERT INTO accounts (name, account_type) VALUES (?, ?). -/
def add_account (db : DB) (name : String) (account_type : AccountType) :
    DB × Nat :=
  ({ db with
      accounts := db.accounts ++
        [{ id := db.next_account_id, name := name,
           account_type := account_type, is_active := true }],
      next_account_id := db.next_account_id + 1 },
    db.next_account_id)

/-- FinanceSystemV5.update_account (line 695): UPDATE accounts SET
name=?, account_type=?, is_active=? WHERE id=?. -/
def update_account (db : DB) (account_id : Nat) (name : String)
    (account_type : AccountType) (is_active : Bool) : DB :=
  { db with
      accounts := db.accounts.map fun a =>
        if a.id = account_id then
          { a with name := name, account_type := account_type,
                   is_active := is_active }
        else a }

/-- FinanceSystemV5.delete_account (line 703): soft delete, UPDATE
accounts SET is_active=0 WHERE id=?. -/
def delete_account (db : DB) (account_id : Nat) : DB :=
  { db with
      accounts := db.accounts.map fun a =>
        if a.id = account_id then { a with is_active := false } else a }

/-- FinanceSystemV5.get_accounts with no type filter (line 212):
SELECT * FROM accounts WHERE is_active=1 ORDER BY account_type, name.
The ORDER BY only permutes the result; it is omitted here because every
use keys rows by their unique id, which is insensitive to row order. -/
def get_accounts (db : DB) : List Account :=
  db.accounts.filter fun a => a.is_active

/-- FinanceSystemV5.add_payment_method (the later definition, line 614):
INSERT INTO payment_methods (name, method_type, commission_percent,
default_account_id) VALUES (?, ?, ?, ?). -/
def add_payment_method (db : DB) (name : String) (commission : ℚ)
    (account_id : Nat) : DB × Nat :=
  ({ db with
      payment_methods := db.payment_methods ++
        [{ id := db.next_method_id, name := name,
           default_account_id := account_id,
           commission_percent := commission,
           is_visible := true, is_active := true, display_order := 0 }],
      next_method_id := db.next_method_id + 1 },
    db.next_method_id)

/-- FinanceSystemV5.update_payment_method (line 624): UPDATE
payment_methods SET name=?, method_type=?, commission_percent=?,
default_account_id=?, is_active=? WHERE id=?. -/
def update_payment_method (db : DB) (method_id : Nat) (name : String)
    (commission : ℚ) (account_id : Nat) (is_active : Bool) : DB :=
  { db with
      payment_methods := db.payment_methods.map fun m =>
        if m.id = method_id then
          { m with name := name, commission_percent := commission,
                   default_account_id := account_id,
                   is_active := is_active }
        else m }

/-- FinanceSystemV5.delete_payment_method (line 635): soft delete. -/
def delete_payment_method (db : DB) (method_id : Nat) : DB :=
  { db with
      payment_methods := db.payment_methods.map fun m =>
        if m.id = method_id then { m with is_active := false } else m }

/-- FinanceSystemV5.get_payment_methods with no type filter (line 253):
SELECT pm.*, a.name FROM payment_methods pm LEFT JOIN accounts a ...
WHERE pm.is_active=1 ORDER BY pm.display_order ASC, pm.method_type,
pm.name.  The joined account name and the ORDER BY are omitted: the only
modelled consumer (api_server create_report) searches this list for a
unique method id, which is insensitive to row order and to the extra
column. -/
def get_payment_methods (db : DB) : List PaymentMethod :=
  db.payment_methods.filter fun m => m.is_active

/-- FinanceSystemV5.add_location (line 664): INSERT INTO locations. -/
def add_location (db : DB) (name : String) (address : String) : DB × Nat :=
  ({ db with
      locations := db.locations ++
        [{ id := db.next_location_id, name := name, address := address,
           is_active := true }],
      next_location_id := db.next_location_id + 1 },
    db.next_location_id)

/-- FinanceSystemV5.delete_location (line 679): soft delete. -/
def delete_location (db : DB) (location_id : Nat) : DB :=
  { db with
      locations := db.locations.map fun l =>
        if l.id = location_id then { l with is_active := false } else l }

/-- FinanceSystemV5.create_daily_report (line 337): INSERT INTO
daily_reports (report_date, location_id, total_sales, created_by).
The UNIQUE(report_date, location_id) table constraint makes the INSERT
raise sqlite3.IntegrityError when a row with the same pair exists; the
state is unchanged in that case. -/
def create_daily_report (db : DB) (report_date : Nat) (location_id : Nat)
    (total_sales : ℚ) (created_by : Option String) :
    Except StoreError (DB × Nat) :=
  if db.daily_reports.any
      (fun r => r.report_date = report_date ∧ r.location_id = location_id)
  then
    .error .integrityError
  else
    .ok
      ({ db with
          daily_reports := db.daily_reports ++
            [{ id := db.next_report_id, report_date := report_date,
               location_id := location_id, total_sales := total_sales,
               cash_expected := none, cash_actual := none,
               cash_difference := none, cash_breakdown := none,
               status := Status.opened, created_by := created_by,
               closed_at := none }],
          next_report_id := db.next_report_id + 1 },
        db.next_report_id)

/-- FinanceSystemV5.get_daily_report (line 347): SELECT dr.*, l.name
FROM daily_reports dr JOIN locations l ON dr.location_id = l.id WHERE
dr.report_date=? AND dr.location_id=?.  The inner join means the query
returns a row only when the location id also exists in the locations
table. -/
def get_daily_report (db : DB) (report_date : Nat) (location_id : Nat) :
    Option DailyReport :=
  (db.daily_reports.find?
      (fun r => r.report_date = report_date ∧ r.location_id = location_id)).filter
    (fun _ => db.locations.any fun l => l.id = location_id)

/-- Commission lookup of FinanceSystemV5.add_report_payment (line 362):
SELECT commission_percent FROM payment_methods WHERE id=?, with the
percent defaulting to 0 when the method row is missing. -/
def methodCommission (db : DB) (payment_method_id : Nat) : ℚ :=
  match db.payment_methods.find? fun m => m.id = payment_method_id with
  | some m => m.commission_percent
  | none => 0

/-- FinanceSystemV5.add_report_payment (line 359), continued: computes
commission_amount = amount * (commission_percent / 100) and net_amount =
amount - commission_amount, then inserts the row. -/
def add_report_payment (db : DB) (report_id : Nat)
    (payment_method_id : Nat) (account_id : Nat) (amount : ℚ) :
    DB × Nat :=
  let commission_percent : ℚ := methodCommission db payment_method_id
  let commission_amount := amount * (commission_percent / 100)
  let net_amount := amount - commission_amount
  ({ db with
      report_payments := db.report_payments ++
        [{ id := db.next_payment_id, report_id := report_id,
           payment_method_id := payment_method_id,
           account_id := account_id, amount := amount,
           commission_amount := commission_amount,
           net_amount := net_amount }],
      next_payment_id := db.next_payment_id + 1 },
    db.next_payment_id)

/-- FinanceSystemV5.add_non_sales_income (line 376): plain INSERT. -/
def add_non_sales_income (db : DB) (report_id : Nat) (account_id : Nat)
    (amount : ℚ) (category_id : Option Nat) (description : String) :
    DB × Nat :=
  ({ db with
      non_sales_income := db.non_sales_income ++
        [{ id := db.next_income_id, report_id := report_id,
           category_id := category_id, account_id := account_id,
           amount := amount, description := description }],
      next_income_id := db.next_income_id + 1 },
    db.next_income_id)

/-- FinanceSystemV5.add_report_expense (line 386): plain INSERT. -/
def add_report_expense (db : DB) (report_id : Nat) (account_id : Nat)
    (amount : ℚ) (category_id : Option Nat) (description : String) :
    DB × Nat :=
  ({ db with
      report_expenses := db.report_expenses ++
        [{ id := db.next_expense_id, report_id := report_id,
           category_id := category_id, account_id := account_id,
           amount := amount, description := description }],
      next_expense_id := db.next_expense_id + 1 },
    db.next_expense_id)

/-- FinanceSystemV5.update_report_cash (line 396): computes
cash_difference = cash_actual - cash_expected and persists all four cash
columns of the report.  The cash_breakdown dict is stored as its JSON
encoding; it is modelled as an opaque string. -/
def update_report_cash (db : DB) (report_id : Nat) (cash_expected : ℚ)
    (cash_actual : ℚ) (cash_breakdown : String) : DB :=
  let cash_difference := cash_actual - cash_expected
  { db with
      daily_reports := db.daily_reports.map fun r =>
        if r.id = report_id then
          { r with cash_expected := some cash_expected,
                   cash_actual := some cash_actual,
                   cash_difference := some cash_difference,
                   cash_breakdown := some cash_breakdown }
        else r }

/-- FinanceSystemV5.close_report (line 407): UPDATE daily_reports SET
status='closed', closed_at=CURRENT_TIMESTAMP WHERE id=?.  The timestamp
is passed explicitly. -/
def close_report (db : DB) (report_id : Nat) (now : Nat) : DB :=
  { db with
      daily_reports := db.daily_reports.map fun r =>
        if r.id = report_id then
          { r with status := Status.closed, closed_at := some now }
        else r }

/-! ### Balance Engine: FinanceSystemV5.get_account_balance (line 459) -/

/-- One value of the dictionary returned by get_account_balance. -/
structure BalanceEntry where
  name : String
  type : AccountType
  balance : ℚ
  sales_income : ℚ
  non_sales_income : ℚ
  expenses : ℚ
deriving DecidableEq, Repr

/-- SELECT SUM(cash_actual) FROM daily_reports WHERE status='closed',
with NULL cash_actual values skipped by SUM and a NULL total coalesced
to 0 by the `or 0` in the caller. -/
def cashActualSum (db : DB) : ℚ :=
  ((db.daily_reports.filter fun r => r.status = Status.closed).filterMap
      fun r => r.cash_actual).sum

/-- SELECT SUM(net_amount) FROM report_payments WHERE account_id=?,
NULL total coalesced to 0. -/
def paymentNetSum (db : DB) (account_id : Nat) : ℚ :=
  ((db.report_payments.filter fun p => p.account_id = account_id).map
      fun p => p.net_amount).sum

/-- SELECT SUM(amount) FROM non_sales_income WHERE account_id=?,
NULL total coalesced to 0. -/
def incomeSum (db : DB) (account_id : Nat) : ℚ :=
  ((db.non_sales_income.filter fun i => i.account_id = account_id).map
      fun i => i.amount).sum

/-- SELECT SUM(amount) FROM report_expenses WHERE account_id=?,
NULL total coalesced to 0. -/
def expenseSum (db : DB) (account_id : Nat) : ℚ :=
  ((db.report_expenses.filter fun e => e.account_id = account_id).map
      fun e => e.amount).sum

/-- Body of the per-account loop of get_account_balance. -/
def balanceEntryFor (db : DB) (acc : Account) : BalanceEntry :=
  if acc.account_type = AccountType.cash then
    let balance := cashActualSum db
    { name := acc.name, type := acc.account_type, balance := balance,
      sales_income := balance, non_sales_income := 0, expenses := 0 }
  else
    let sales_income := paymentNetSum db acc.id
    let non_sales := incomeSum db acc.id
    let expenses := expenseSum db acc.id
    { name := acc.name, type := acc.account_type,
      balance := sales_income + non_sales - expenses,
      sales_income := sales_income, non_sales_income := non_sales,
      expenses := expenses }

/-- FinanceSystemV5.get_account_balance (line 459): iterates over
get_accounts() and builds a dictionary keyed by account id, modelled as
an association list in iteration order. -/
def get_account_balance (db : DB) : List (Nat × BalanceEntry) :=
  (get_accounts db).map fun acc => (acc.id, balanceEntryFor db acc)

/-! ### History Engine: FinanceSystemV5.get_account_history (line 517) -/

/-- One row of the history returned by get_account_history: the keys of
the dicts built by the four SELECTs (date, report_id, amount,
description, operation_type, location).  The amount is an Option because
the cash stream selects dr.cash_actual, which may be NULL; the location
is an Option because of the LEFT JOIN on locations. -/
structure HistoryEntry where
  date : Nat
  report_id : Nat
  amount : Option ℚ
  description : String
  operation_type : String
  location : Option String
deriving DecidableEq, Repr

/-- Name of the location of a report via LEFT JOIN locations l ON
dr.location_id = l.id. -/
def locationName (db : DB) (location_id : Nat) : Option String :=
  (db.locations.find? fun l => l.id = location_id).map fun l => l.name

/-- Cash stream of get_account_history: one synthetic row per closed
daily report (regardless of account), amount = cash_actual, description
= the literal cash-sales label, operation_type = "+". -/
def cashHistoryRows (db : DB) : List HistoryEntry :=
  (db.daily_reports.filter fun r => r.status = Status.closed).map fun r =>
    { date := r.report_date, report_id := r.id, amount := r.cash_actual,
      description := "Продажи наличными", operation_type := "+",
      location := locationName db r.location_id }

/-- Payment stream of get_account_history: report_payments rows of the
account, inner-joined with daily_reports (for the date) and
payment_methods (for the description); rows whose report or method id
resolves to no row are dropped by the inner join. -/
def paymentHistoryRows (db : DB) (account_id : Nat) : List HistoryEntry :=
  (db.report_payments.filter fun p => p.account_id = account_id).filterMap
    fun p =>
      (db.daily_reports.find? fun r => r.id = p.report_id).bind fun dr =>
        (db.payment_methods.find? fun m => m.id = p.payment_method_id).map
          fun pm =>
            { date := dr.report_date, report_id := p.report_id,
              amount := some p.net_amount, description := pm.name,
              operation_type := "+",
              location := locationName db dr.location_id }

/-- Non-sales-income stream of get_account_history: inner join with
daily_reports, operation_type = "+". -/
def incomeHistoryRows (db : DB) (account_id : Nat) : List HistoryEntry :=
  (db.non_sales_income.filter fun i => i.account_id = account_id).filterMap
    fun i =>
      (db.daily_reports.find? fun r => r.id = i.report_id).map fun dr =>
        { date := dr.report_date, report_id := i.report_id,
          amount := some i.amount, description := i.description,
          operation_type := "+",
          location := locationName db dr.location_id }

/-- Expense stream of get_account_history: inner join with
daily_reports, operation_type = "-". -/
def expenseHistoryRows (db : DB) (account_id : Nat) : List HistoryEntry :=
  (db.report_expenses.filter fun e => e.account_id = account_id).filterMap
    fun e =>
      (db.daily_reports.find? fun r => r.id = e.report_id).map fun dr =>
        { date := dr.report_date, report_id := e.report_id,
          amount := some e.amount, description := e.description,
          operation_type := "-",
          location := locationName db dr.location_id }

/-- Descending-by-date comparison used by every ORDER BY report_date
DESC and by the final history.sort(key=date, reverse=True). -/
def dateGE (a b : HistoryEntry) : Prop := b.date ≤ a.date

instance : DecidableRel dateGE := fun a b => Nat.decLe b.date a.date

instance : IsTotal HistoryEntry dateGE :=
  ⟨fun a b => Nat.le_total b.date a.date⟩

instance : IsTrans HistoryEntry dateGE :=
  ⟨fun _ _ _ h h2 => Nat.le_trans h2 h⟩

/-- Sorting of history rows by date descending.  Both the Python sort
and insertion sort are stable, so with the same key order they compute
the same list. -/
def sortByDateDesc (l : List HistoryEntry) : List HistoryEntry :=
  l.insertionSort dateGE

/-- FinanceSystemV5.get_account_history (line 517): returns [] when the
account id does not exist; otherwise concatenates the per-type primary
stream (cash: synthetic closed-report rows; bank: payment rows) with the
income and expense streams, each pre-sorted by its SQL ORDER BY, and
finally sorts everything by date descending. -/
def get_account_history (db : DB) (account_id : Nat) : List HistoryEntry :=
  match db.accounts.find? fun a => a.id = account_id with
  | none => []
  | some acc =>
    let primary :=
      if acc.account_type = AccountType.cash then
        sortByDateDesc (cashHistoryRows db)
      else
        sortByDateDesc (paymentHistoryRows db account_id)
    let rows := primary
      ++ sortByDateDesc (incomeHistoryRows db account_id)
      ++ sortByDateDesc (expenseHistoryRows db account_id)
    sortByDateDesc rows

/-! ### HTTP layer: api_server.py create_report (line 121) -/

/-- PaymentEntry model of api_server.py. -/
structure PaymentEntry where
  method_id : Nat
  amount : ℚ
deriving DecidableEq, Repr

/-- ExpenseEntry model of api_server.py. -/
structure ExpenseEntry where
  category_id : Option Nat
  amount : ℚ
  description : String
deriving DecidableEq, Repr

/-- IncomeEntry model of api_server.py. -/
structure IncomeEntry where
  category_id : Option Nat
  amount : ℚ
  description : String
deriving DecidableEq, Repr

/-- CreateReportRequest model of api_server.py (report_date already
parsed; cash_actual defaults to 0; created_by defaults to
"telegram_user"). -/
structure CreateReportRequest where
  report_date : Nat
  location_id : Nat
  total_sales : ℚ
  payments : List PaymentEntry
  expenses : List ExpenseEntry
  incomes : List IncomeEntry
  cash_actual : ℚ
  created_by : String
deriving DecidableEq, Repr

/-- Outcome of the create_report endpoint: HTTP 200 with the new report
id, the HTTP 400 duplicate-report rejection, or the HTTP 500 wrapper
around a storage error. -/
inductive ApiResult where
  | ok (report_id : Nat)
  | duplicateReportError
  | serverError
deriving DecidableEq, Repr

/-- Inline UPDATE at the end of create_report (api_server.py line 194):
SET cash_actual = ?, status = 'closed' WHERE id = ?.  Note that it does
not touch closed_at, cash_expected or cash_difference. -/
def apiCloseUpdate (db : DB) (report_id : Nat) (cash_actual : ℚ) : DB :=
  { db with
      daily_reports := db.daily_reports.map fun r =>
        if r.id = report_id then
          { r with cash_actual := some cash_actual,
                   status := Status.closed }
        else r }

/-- Per-payment step of the payments loop (api_server.py line 153): a
payment is inserted only when its amount is positive and its method id
occurs in get_payment_methods() (which lists active methods only); the
destination account is the default account of the method. -/
def apiAddPayment (report_id : Nat) (db : DB) (p : PaymentEntry) : DB :=
  if 0 < p.amount then
    match (get_payment_methods db).find? fun m => m.id = p.method_id with
    | some m =>
      (add_report_payment db report_id p.method_id m.default_account_id
        p.amount).1
    | none => db
  else db

/-- Per-expense step of the expenses loop (api_server.py line 168):
inserted only when the amount is positive, always against account 1. -/
def apiAddExpense (report_id : Nat) (db : DB) (e : ExpenseEntry) : DB :=
  if 0 < e.amount then
    (add_report_expense db report_id 1 e.amount e.category_id
      e.description).1
  else db

/-- Per-income step of the incomes loop (api_server.py line 180):
inserted only when the amount is positive, always against account 1. -/
def apiAddIncome (report_id : Nat) (db : DB) (i : IncomeEntry) : DB :=
  if 0 < i.amount then
    (add_non_sales_income db report_id 1 i.amount i.category_id
      i.description).1
  else db

/-- api_server.py create_report (line 121): checks for an existing
report via get_daily_report, creates the report, loops over payments,
expenses and incomes, and finally applies the inline close UPDATE when
cash_actual is positive.  A storage error from the INSERT (possible
because the duplicate check misses reports whose location id is not in
the locations table) is caught by the generic handler and surfaced as
HTTP 500 with no state change. -/
def api_create_report (db : DB) (req : CreateReportRequest) :
    DB × ApiResult :=
  match get_daily_report db req.report_date req.location_id with
  | some _ => (db, .duplicateReportError)
  | none =>
    match create_daily_report db req.report_date req.location_id
        req.total_sales (some req.created_by) with
    | .error _ => (db, .serverError)
    | .ok (db1, report_id) =>
      let db2 := req.payments.foldl (apiAddPayment report_id) db1
      let db3 := req.expenses.foldl (apiAddExpense report_id) db2
      let db4 := req.incomes.foldl (apiAddIncome report_id) db3
      let db5 :=
        if 0 < req.cash_actual then apiCloseUpdate db4 report_id req.cash_actual
        else db4
      (db5, .ok report_id)

/-! ### Remaining mutating operations of FinanceSystemV5 -/

/-- FinanceSystemV5.update_location (line 671): UPDATE locations SET
name=?, address=?, is_active=? WHERE id=?. -/
def update_location (db : DB) (location_id : Nat) (name : String)
    (address : String) (is_active : Bool) : DB :=
  { db with
      locations := db.locations.map fun l =>
        if l.id = location_id then
          { l with name := name, address := address,
                   is_active := is_active }
        else l }

/-- FinanceSystemV5.toggle_payment_method_visibility (line 641). -/
def toggle_payment_method_visibility (db : DB) (method_id : Nat)
    (is_visible : Bool) : DB :=
  { db with
      payment_methods := db.payment_methods.map fun m =>
        if m.id = method_id then { m with is_visible := is_visible }
        else m }

/-- Loop body of FinanceSystemV5.update_payment_methods_order (line
279): UPDATE payment_methods SET display_order=? WHERE id=?.  The whole
loop is a sequence of these updates. -/
def set_payment_method_order (db : DB) (method_id : Nat) (ord : Nat) :
    DB :=
  { db with
      payment_methods := db.payment_methods.map fun m =>
        if m.id = method_id then { m with display_order := ord } else m }

/-! ### Reachable states

The mutating entry points of the system are the create_report endpoint
of api_server.py and the public mutating methods of FinanceSystemV5
(for methods defined twice in the class body, the later definition is
the one that exists at runtime and is the one modelled). -/

/-- One invocation of a mutating operation. -/
inductive Op where
  | apiCreateReport (req : CreateReportRequest)
  | createDailyReport (report_date location_id : Nat) (total_sales : ℚ)
      (created_by : Option String)
  | addReportPayment (report_id payment_method_id account_id : Nat)
      (amount : ℚ)
  | addNonSalesIncome (report_id account_id : Nat) (amount : ℚ)
      (category_id : Option Nat) (description : String)
  | addReportExpense (report_id account_id : Nat) (amount : ℚ)
      (category_id : Option Nat) (description : String)
  | updateReportCash (report_id : Nat) (cash_expected cash_actual : ℚ)
      (cash_breakdown : String)
  | closeReport (report_id now : Nat)
  | addAccount (name : String) (account_type : AccountType)
  | updateAccount (account_id : Nat) (name : String)
      (account_type : AccountType) (is_active : Bool)
  | deleteAccount (account_id : Nat)
  | addPaymentMethod (name : String) (commission : ℚ) (account_id : Nat)
  | updatePaymentMethod (method_id : Nat) (name : String)
      (commission : ℚ) (account_id : Nat) (is_active : Bool)
  | deletePaymentMethod (method_id : Nat)
  | toggleMethodVisibility (method_id : Nat) (is_visible : Bool)
  | setMethodOrder (method_id ord : Nat)
  | addLocation (name address : String)
  | updateLocation (location_id : Nat) (name address : String)
      (is_active : Bool)
  | deleteLocation (location_id : Nat)

/-- Effect of one operation on the state.  Operations that raise
(IntegrityError on a duplicate report INSERT) abort before the commit
and leave the state unchanged. -/
def applyOp (db : DB) : Op → DB
  | .apiCreateReport req => (api_create_report db req).1
  | .createDailyReport d loc total by_ =>
    match create_daily_report db d loc total by_ with
    | .ok (db2, _) => db2
    | .error _ => db
  | .addReportPayment rid mid aid amount =>
    (add_report_payment db rid mid aid amount).1
  | .addNonSalesIncome rid aid amount cat dsc =>
    (add_non_sales_income db rid aid amount cat dsc).1
  | .addReportExpense rid aid amount cat dsc =>
    (add_report_expense db rid aid amount cat dsc).1
  | .updateReportCash rid e a bd => update_report_cash db rid e a bd
  | .closeReport rid now => close_report db rid now
  | .addAccount name t => (add_account db name t).1
  | .updateAccount aid name t act => update_account db aid name t act
  | .deleteAccount aid => delete_account db aid
  | .addPaymentMethod name com aid => (add_payment_method db name com aid).1
  | .updatePaymentMethod mid name com aid act =>
    update_payment_method db mid name com aid act
  | .deletePaymentMethod mid => delete_payment_method db mid
  | .toggleMethodVisibility mid vis =>
    toggle_payment_method_visibility db mid vis
  | .setMethodOrder mid ord => set_payment_method_order db mid ord
  | .addLocation name addr => (add_location db name addr).1
  | .updateLocation lid name addr act =>
    update_location db lid name addr act
  | .deleteLocation lid => delete_location db lid

/-- State reached by running a sequence of operations from the freshly
initialised database. -/
def runOps (ops : List Op) : DB :=
  ops.foldl applyOp initDB

/-- A state is reachable when some operation sequence produces it. -/
def Reachable (db : DB) : Prop :=
  ∃ ops : List Op, runOps ops = db

/-- The (date, location) key of a daily report, unique by the
UNIQUE(report_date, location_id) constraint. -/
def pairKey (r : DailyReport) : Nat × Nat :=
  (r.report_date, r.location_id)

/-- Invariants maintained by every operation. -/
structure Inv (db : DB) : Prop where
  pairs_nodup : (db.daily_reports.map pairKey).Nodup
  report_id_lt : ∀ r ∈ db.daily_reports, r.id < db.next_report_id
  cash_diff : ∀ r ∈ db.daily_reports, ∀ e a, r.cash_expected = some e →
    r.cash_actual = some a → r.cash_difference = some (a - e)
  payment_sum : ∀ p ∈ db.report_payments,
    p.commission_amount + p.net_amount = p.amount
  account_id_nodup : (db.accounts.map Account.id).Nodup
  account_id_lt : ∀ a ∈ db.accounts, a.id < db.next_account_id

/-! ### Concrete sample states used by witnesses and counterexamples -/

/-- Operation sequence with one bank account (id 1, the hard-coded
destination of API expenses and incomes), two cash accounts, one
location and one report created through the API with an expense, an
income and a closing cash count (no payments). -/
def sampleOps : List Op :=
  [ Op.addAccount "Bank" AccountType.bank,
    Op.addAccount "Kassa" AccountType.cash,
    Op.addAccount "Kassa2" AccountType.cash,
    Op.addLocation "Tochka" "",
    Op.apiCreateReport
      { report_date := 20240501, location_id := 1, total_sales := 1000,
        payments := [],
        expenses := [{ category_id := none, amount := 100,
                       description := "exp" }],
        incomes := [{ category_id := none, amount := 50,
                      description := "inc" }],
        cash_actual := 400, created_by := "u" } ]

/-- The state reached by sampleOps. -/
def sampleDB : DB := runOps sampleOps

/-- Operation sequence with one cash account that is also the default
account of a commission-free payment method, and one report created
through the API with a single payment and a closing cash count. -/
def payOps : List Op :=
  [ Op.addAccount "Kassa" AccountType.cash,
    Op.addPaymentMethod "CashPay" 0 1,
    Op.addLocation "Tochka" "",
    Op.apiCreateReport
      { report_date := 20240501, location_id := 1, total_sales := 1000,
        payments := [{ method_id := 1, amount := 300 }],
        expenses := [], incomes := [],
        cash_actual := 400, created_by := "u" } ]

/-- The state reached by payOps: its cash account 1 owns one payment
row. -/
def payDB : DB := runOps payOps

/-- A request whose location id 99 does not occur in the locations
table; used to exercise the blind spot of the duplicate check. -/
def orphanReq : CreateReportRequest :=
  { report_date := 7, location_id := 99, total_sales := 10,
    payments := [], expenses := [], incomes := [], cash_actual := 0,
    created_by := "u" }

/-- State holding one report at the nonexistent location 99. -/
def orphanDB : DB := runOps [Op.apiCreateReport orphanReq]

/-- A fresh request against sampleDB: a new date, one valid payment,
one payment with an unknown method id, one nonpositive payment, one
zero expense, one positive expense and one negative income. -/
def mixedReq : CreateReportRequest :=
  { report_date := 20240502, location_id := 1, total_sales := 500,
    payments := [{ method_id := 1, amount := 600 },
                 { method_id := 9, amount := 50 },
                 { method_id := 1, amount := -5 }],
    expenses := [{ category_id := none, amount := 0, description := "z" },
                 { category_id := none, amount := 20, description := "e" }],
    incomes := [{ category_id := none, amount := -3, description := "i" }],
    cash_actual := 0, created_by := "u" }

/-- State with a single soft-deleted cash account. -/
def inactiveDB : DB :=
  runOps [Op.addAccount "Kassa" AccountType.cash, Op.deleteAccount 1]

/-- A second request for the (date, location) pair already used by the
report of sampleDB. -/
def dupReq : CreateReportRequest :=
  { report_date := 20240501, location_id := 1, total_sales := 5,
    payments := [], expenses := [], incomes := [], cash_actual := 0,
    created_by := "v" }

/-- A request whose only payment has a positive amount but a method id
matching no payment method. -/
def missingMethodReq : CreateReportRequest :=
  { report_date := 1, location_id := 1, total_sales := 0,
    payments := [{ method_id := 1, amount := 100 }],
    expenses := [], incomes := [], cash_actual := 0, created_by := "u" }

/-- Balance entry of the cash accounts of sampleDB. -/
def cashEntry400 : BalanceEntry :=
  { name := "Kassa", type := AccountType.cash, balance := 400,
    sales_income := 400, non_sales_income := 0, expenses := 0 }

/-- Balance entry of the second cash account of sampleDB. -/
def cashEntry400b : BalanceEntry :=
  { cashEntry400 with name := "Kassa2" }

/-- Balance entry of the bank account of sampleDB: income 50 minus
expense 100. -/
def bankEntryNeg50 : BalanceEntry :=
  { name := "Bank", type := AccountType.bank, balance := -50,
    sales_income := 0, non_sales_income := 50, expenses := 100 }

/-! ### Helper lemmas about the Balance Engine -/

theorem mem_balance_elim {db : DB} {p : Nat × BalanceEntry}
    (hp : p ∈ get_account_balance db) :
    ∃ acc, acc ∈ get_accounts db ∧ p = (acc.id, balanceEntryFor db acc) := by
  rw [get_account_balance, List.mem_map] at hp
  obtain ⟨acc, h1, h2⟩ := hp
  exact ⟨acc, h1, h2.symm⟩

theorem balanceEntryFor_type (db : DB) (acc : Account) :
    (balanceEntryFor db acc).type = acc.account_type := by
  unfold balanceEntryFor
  split <;> rfl

theorem balanceEntryFor_of_cash (db : DB) {acc : Account}
    (h : acc.account_type = AccountType.cash) :
    balanceEntryFor db acc =
      { name := acc.name, type := acc.account_type,
        balance := cashActualSum db, sales_income := cashActualSum db,
        non_sales_income := 0, expenses := 0 } := by
  simp [balanceEntryFor, h]

theorem balanceEntryFor_of_bank (db : DB) {acc : Account}
    (h : acc.account_type = AccountType.bank) :
    balanceEntryFor db acc =
      { name := acc.name, type := acc.account_type,
        balance := paymentNetSum db acc.id + incomeSum db acc.id
          - expenseSum db acc.id,
        sales_income := paymentNetSum db acc.id,
        non_sales_income := incomeSum db acc.id,
        expenses := expenseSum db acc.id } := by
  simp [balanceEntryFor, h]

theorem cashActualSum_add_income (db : DB) (rid aid : Nat) (amount : ℚ)
    (cat : Option Nat) (dsc : String) :
    cashActualSum (add_non_sales_income db rid aid amount cat dsc).1
      = cashActualSum db := rfl

theorem cashActualSum_add_expense (db : DB) (rid aid : Nat) (amount : ℚ)
    (cat : Option Nat) (dsc : String) :
    cashActualSum (add_report_expense db rid aid amount cat dsc).1
      = cashActualSum db := rfl

theorem get_accounts_add_income (db : DB) (rid aid : Nat) (amount : ℚ)
    (cat : Option Nat) (dsc : String) :
    get_accounts (add_non_sales_income db rid aid amount cat dsc).1
      = get_accounts db := rfl

theorem get_accounts_add_expense (db : DB) (rid aid : Nat) (amount : ℚ)
    (cat : Option Nat) (dsc : String) :
    get_accounts (add_report_expense db rid aid amount cat dsc).1
      = get_accounts db := rfl

/-! ### Claims about the Balance Engine -/

/-- C1: for every cash account listed by the balance engine, the balance
equals the sum of cash_actual over all closed daily reports (no location
filter), the reported breakdown is salesIncome = balance and
nonSalesIncome = expenses = 0, and inserting a non-sales-income or
expense row against any account leaves the cash entry unchanged. -/
theorem C1_cash_account_balance (db : DB) (p : Nat × BalanceEntry)
    (hp : p ∈ get_account_balance db) (hc : p.2.type = AccountType.cash) :
    p.2.balance = cashActualSum db
    ∧ p.2.sales_income = p.2.balance
    ∧ p.2.non_sales_income = 0
    ∧ p.2.expenses = 0
    ∧ ∀ rid aid amount cat dsc,
        p ∈ get_account_balance
            (add_non_sales_income db rid aid amount cat dsc).1
        ∧ p ∈ get_account_balance
            (add_report_expense db rid aid amount cat dsc).1 := by
  obtain ⟨acc, hacc, rfl⟩ := mem_balance_elim hp
  have ht : acc.account_type = AccountType.cash := by
    simpa [balanceEntryFor_type] using hc
  have he := balanceEntryFor_of_cash db ht
  refine ⟨by simp [he], by simp [he], by simp [he], by simp [he], ?_⟩
  intro rid aid amount cat dsc
  constructor
  · rw [get_account_balance, List.mem_map]
    refine ⟨acc, ?_, ?_⟩
    · rw [get_accounts_add_income]; exact hacc
    · rw [balanceEntryFor_of_cash _ ht, cashActualSum_add_income, he]
  · rw [get_account_balance, List.mem_map]
    refine ⟨acc, ?_, ?_⟩
    · rw [get_accounts_add_expense]; exact hacc
    · rw [balanceEntryFor_of_cash _ ht, cashActualSum_add_expense, he]

/-- Witness for C1 on the sample state. -/
theorem C1_cash_account_balance_witness :
    ((2, cashEntry400) ∈ get_account_balance sampleDB
      ∧ cashEntry400.type = AccountType.cash)
    ∧ ((2, cashEntry400).2.balance = cashActualSum sampleDB
      ∧ (2, cashEntry400).2.sales_income = (2, cashEntry400).2.balance
      ∧ (2, cashEntry400).2.non_sales_income = 0
      ∧ (2, cashEntry400).2.expenses = 0
      ∧ ∀ rid aid amount cat dsc,
          (2, cashEntry400) ∈ get_account_balance
              (add_non_sales_income sampleDB rid aid amount cat dsc).1
          ∧ (2, cashEntry400) ∈ get_account_balance
              (add_report_expense sampleDB rid aid amount cat dsc).1) :=
  ⟨⟨by decide, by decide⟩,
    C1_cash_account_balance sampleDB (2, cashEntry400) (by decide) (by decide)⟩

/-- C2: for every bank account listed by the balance engine, balance =
sum of net_amount over its payment rows + sum of amount over its
non-sales-income rows - sum of amount over its expense rows (empty sums
being 0); an account with no matching rows gets balance 0; every active
account gets an entry. -/
theorem C2_bank_account_balance (db : DB) (p : Nat × BalanceEntry)
    (hp : p ∈ get_account_balance db) (hb : p.2.type = AccountType.bank) :
    p.2.balance = paymentNetSum db p.1 + incomeSum db p.1 - expenseSum db p.1
    ∧ p.2.sales_income = paymentNetSum db p.1
    ∧ p.2.non_sales_income = incomeSum db p.1
    ∧ p.2.expenses = expenseSum db p.1
    ∧ (db.report_payments.filter (fun x => x.account_id = p.1) = [] →
        db.non_sales_income.filter (fun x => x.account_id = p.1) = [] →
        db.report_expenses.filter (fun x => x.account_id = p.1) = [] →
        p.2.balance = 0)
    ∧ ∀ acc ∈ db.accounts, acc.is_active = true →
        (acc.id, balanceEntryFor db acc) ∈ get_account_balance db := by
  obtain ⟨acc, hacc, rfl⟩ := mem_balance_elim hp
  have ht : acc.account_type = AccountType.bank := by
    simpa [balanceEntryFor_type] using hb
  have he := balanceEntryFor_of_bank db ht
  refine ⟨by simp [he], by simp [he], by simp [he], by simp [he], ?_, ?_⟩
  · intro h1 h2 h3
    simp only [he]
    rw [paymentNetSum, incomeSum, expenseSum]
    simp only at h1 h2 h3
    rw [h1, h2, h3]
    simp
  · intro acc2 hacc2 hact
    rw [get_account_balance, List.mem_map]
    exact ⟨acc2, by rw [get_accounts, List.mem_filter]; exact ⟨hacc2, by simp [hact]⟩, rfl⟩

/-- Witness for C2 on the sample state. -/
theorem C2_bank_account_balance_witness :
    ((1, bankEntryNeg50) ∈ get_account_balance sampleDB
      ∧ bankEntryNeg50.type = AccountType.bank)
    ∧ ((1, bankEntryNeg50).2.balance
        = paymentNetSum sampleDB 1 + incomeSum sampleDB 1 - expenseSum sampleDB 1
      ∧ (1, bankEntryNeg50).2.sales_income = paymentNetSum sampleDB 1
      ∧ (1, bankEntryNeg50).2.non_sales_income = incomeSum sampleDB 1
      ∧ (1, bankEntryNeg50).2.expenses = expenseSum sampleDB 1
      ∧ (sampleDB.report_payments.filter (fun x => x.account_id = 1) = [] →
          sampleDB.non_sales_income.filter (fun x => x.account_id = 1) = [] →
          sampleDB.report_expenses.filter (fun x => x.account_id = 1) = [] →
          (1, bankEntryNeg50).2.balance = 0)
      ∧ ∀ acc ∈ sampleDB.accounts, acc.is_active = true →
          (acc.id, balanceEntryFor sampleDB acc) ∈ get_account_balance sampleDB) :=
  ⟨⟨by decide, by decide⟩,
    C2_bank_account_balance sampleDB (1, bankEntryNeg50) (by decide) (by decide)⟩

/-- C10: any two cash-account entries of the balance engine carry the
same balance, salesIncome, nonSalesIncome and expenses. -/
theorem C10_cash_entries_equal (db : DB) (p q : Nat × BalanceEntry)
    (hp : p ∈ get_account_balance db) (hq : q ∈ get_account_balance db)
    (hpc : p.2.type = AccountType.cash)
    (hqc : q.2.type = AccountType.cash) :
    p.2.balance = q.2.balance
    ∧ p.2.sales_income = q.2.sales_income
    ∧ p.2.non_sales_income = q.2.non_sales_income
    ∧ p.2.expenses = q.2.expenses := by
  obtain ⟨acc, -, rfl⟩ := mem_balance_elim hp
  obtain ⟨acc2, -, rfl⟩ := mem_balance_elim hq
  have ht : acc.account_type = AccountType.cash := by
    simpa [balanceEntryFor_type] using hpc
  have ht2 : acc2.account_type = AccountType.cash := by
    simpa [balanceEntryFor_type] using hqc
  rw [balanceEntryFor_of_cash db ht, balanceEntryFor_of_cash db ht2]
  simp

/-- Witness for C10 on the two cash accounts of the sample state. -/
theorem C10_cash_entries_equal_witness :
    ((2, cashEntry400) ∈ get_account_balance sampleDB
      ∧ (3, cashEntry400b) ∈ get_account_balance sampleDB
      ∧ cashEntry400.type = AccountType.cash
      ∧ cashEntry400b.type = AccountType.cash)
    ∧ ((2, cashEntry400).2.balance = (3, cashEntry400b).2.balance
      ∧ (2, cashEntry400).2.sales_income = (3, cashEntry400b).2.sales_income
      ∧ (2, cashEntry400).2.non_sales_income = (3, cashEntry400b).2.non_sales_income
      ∧ (2, cashEntry400).2.expenses = (3, cashEntry400b).2.expenses) :=
  ⟨⟨by decide, by decide, by decide, by decide⟩,
    C10_cash_entries_equal sampleDB (2, cashEntry400) (3, cashEntry400b)
      (by decide) (by decide) (by decide) (by decide)⟩

/-- C9, corrected: the Balance Engine iterates over get_accounts(),
which filters on is_active, so every balance entry belongs to an active
account and inactive accounts are excluded (there is no by-id request
path); the active listing get_accounts likewise returns only active
accounts. -/
theorem C9_balance_engine_active_only (db : DB) :
    (∀ p ∈ get_account_balance db, ∃ acc, acc ∈ db.accounts
      ∧ acc.is_active = true ∧ acc.id = p.1
      ∧ p.2 = balanceEntryFor db acc)
    ∧ (∀ a ∈ get_accounts db, a.is_active = true) := by
  constructor
  · intro p hp
    obtain ⟨acc, hacc, rfl⟩ := mem_balance_elim hp
    rw [get_accounts, List.mem_filter] at hacc
    exact ⟨acc, hacc.1, by simpa using hacc.2, rfl, rfl⟩
  · intro a ha
    rw [get_accounts, List.mem_filter] at ha
    simpa using ha.2

/-- Witness for C9 on the state with one soft-deleted account. -/
theorem C9_balance_engine_active_only_witness :
    (∀ p ∈ get_account_balance inactiveDB, ∃ acc, acc ∈ inactiveDB.accounts
      ∧ acc.is_active = true ∧ acc.id = p.1
      ∧ p.2 = balanceEntryFor inactiveDB acc)
    ∧ (∀ a ∈ get_accounts inactiveDB, a.is_active = true) :=
  C9_balance_engine_active_only inactiveDB

/-- Counterexample to C9 as stated: the soft-deleted cash account of
inactiveDB is present in the accounts table but receives no entry at
all from the balance engine, so the engine does not include inactive
accounts. -/
theorem C9_counterexample :
    get_account_balance inactiveDB = []
    ∧ inactiveDB.accounts =
        [{ id := 1, name := "Kassa", account_type := AccountType.cash,
           is_active := false }] := by
  constructor
  · decide
  · decide

/-! ### Helper lemmas about the History Engine -/

theorem perm_sortByDateDesc (l : List HistoryEntry) :
    List.Perm (sortByDateDesc l) l :=
  List.perm_insertionSort dateGE l

theorem sorted_sortByDateDesc (l : List HistoryEntry) :
    List.Sorted dateGE (sortByDateDesc l) :=
  List.sorted_insertionSort dateGE l

theorem incomeHistoryRows_plus (db : DB) (aid : Nat) :
    ∀ e ∈ incomeHistoryRows db aid, e.operation_type = "+" := by
  intro e he
  rw [incomeHistoryRows, List.mem_filterMap] at he
  obtain ⟨i, -, hi⟩ := he
  obtain ⟨dr, -, hdr⟩ := Option.map_eq_some'.mp hi
  rw [← hdr]

theorem expenseHistoryRows_minus (db : DB) (aid : Nat) :
    ∀ e ∈ expenseHistoryRows db aid, e.operation_type = "-" := by
  intro e he
  rw [expenseHistoryRows, List.mem_filterMap] at he
  obtain ⟨i, -, hi⟩ := he
  obtain ⟨dr, -, hdr⟩ := Option.map_eq_some'.mp hi
  rw [← hdr]

/-- C4, corrected: the account history is sorted by date descending and
is, as a multiset, exactly the concatenation of the per-row streams: for
bank accounts one entry per payment row (joined to its report and
method) plus one entry per income row and one per expense row of the
account; for cash accounts the payment rows contribute nothing and are
replaced by one synthetic cash-sales entry per closed report; income
entries carry operation type plus, expense entries minus. -/
theorem C4_history_sorted_and_complete (db : DB) (aid : Nat)
    (acc : Account)
    (hf : db.accounts.find? (fun a => a.id = aid) = some acc) :
    List.Sorted dateGE (get_account_history db aid)
    ∧ (acc.account_type = AccountType.bank →
        List.Perm (get_account_history db aid)
          (paymentHistoryRows db aid ++ incomeHistoryRows db aid
            ++ expenseHistoryRows db aid))
    ∧ (acc.account_type = AccountType.cash →
        List.Perm (get_account_history db aid)
          (cashHistoryRows db ++ incomeHistoryRows db aid
            ++ expenseHistoryRows db aid))
    ∧ (∀ e ∈ incomeHistoryRows db aid, e.operation_type = "+")
    ∧ (∀ e ∈ expenseHistoryRows db aid, e.operation_type = "-") := by
  refine ⟨?_, ?_, ?_, incomeHistoryRows_plus db aid,
    expenseHistoryRows_minus db aid⟩
  · rw [get_account_history, hf]
    exact sorted_sortByDateDesc _
  · intro ht
    rw [get_account_history, hf]
    have hnc : ¬ acc.account_type = AccountType.cash := by
      rw [ht]; intro hcontra; cases hcontra
    simp only [if_neg hnc]
    exact (perm_sortByDateDesc _).trans
      (((perm_sortByDateDesc _).append (perm_sortByDateDesc _)).append
        (perm_sortByDateDesc _))
  · intro ht
    rw [get_account_history, hf]
    simp only [if_pos ht]
    exact (perm_sortByDateDesc _).trans
      (((perm_sortByDateDesc _).append (perm_sortByDateDesc _)).append
        (perm_sortByDateDesc _))

/-- Witness for C4 on the bank account of the sample state. -/
theorem C4_history_sorted_and_complete_witness :
    (sampleDB.accounts.find? (fun a => a.id = 1) =
      some { id := 1, name := "Bank", account_type := AccountType.bank,
             is_active := true })
    ∧ (List.Sorted dateGE (get_account_history sampleDB 1)
      ∧ (({ id := 1, name := "Bank", account_type := AccountType.bank,
            is_active := true } : Account).account_type = AccountType.bank →
          List.Perm (get_account_history sampleDB 1)
            (paymentHistoryRows sampleDB 1 ++ incomeHistoryRows sampleDB 1
              ++ expenseHistoryRows sampleDB 1))
      ∧ (({ id := 1, name := "Bank", account_type := AccountType.bank,
            is_active := true } : Account).account_type = AccountType.cash →
          List.Perm (get_account_history sampleDB 1)
            (cashHistoryRows sampleDB ++ incomeHistoryRows sampleDB 1
              ++ expenseHistoryRows sampleDB 1))
      ∧ (∀ e ∈ incomeHistoryRows sampleDB 1, e.operation_type = "+")
      ∧ (∀ e ∈ expenseHistoryRows sampleDB 1, e.operation_type = "-")) :=
  ⟨by decide,
    C4_history_sorted_and_complete sampleDB 1
      { id := 1, name := "Bank", account_type := AccountType.bank,
        is_active := true } (by decide)⟩

/-- Counterexample to C4 as stated: in payDB, cash account 1 owns
exactly one payment line row, yet its history consists of the single
synthetic cash-sales entry, so that payment row does not appear in the
history at all (it appears zero times, not exactly once). -/
theorem C4_counterexample :
    (payDB.accounts.find? (fun a => a.id = 1) =
      some { id := 1, name := "Kassa", account_type := AccountType.cash,
             is_active := true })
    ∧ (payDB.report_payments.filter (fun p => p.account_id = 1)).length = 1
    ∧ (get_account_history payDB 1).length = 1
    ∧ (get_account_history payDB 1).all
        (fun e => e.description = "Продажи наличными") = true := by
  refine ⟨by decide, by decide, ?_, ?_⟩
  · decide
  · decide

/-! ### Shape lemmas for the three line-insertion loops of the API -/

theorem add_report_payment_rows (db : DB) (rid mid aid : Nat)
    (amount : ℚ) :
    ∀ q ∈ (add_report_payment db rid mid aid amount).1.report_payments,
      q ∈ db.report_payments
      ∨ (q.commission_amount = amount * (methodCommission db mid / 100)
        ∧ q.commission_amount + q.net_amount = amount
        ∧ q.amount = amount ∧ q.report_id = rid
        ∧ q.payment_method_id = mid ∧ q.account_id = aid) := by
  intro q hq
  rw [add_report_payment] at hq
  simp only [List.mem_append, List.mem_singleton] at hq
  rcases hq with hq | hq
  · exact Or.inl hq
  · right
    subst hq
    refine ⟨rfl, by ring, rfl, rfl, rfl, rfl⟩

theorem apiAddPayment_shape (rid : Nat) (db : DB) (p : PaymentEntry) :
    ∃ rows n, apiAddPayment rid db p =
      { db with report_payments := db.report_payments ++ rows,
                next_payment_id := n }
      ∧ ∀ q ∈ rows, q.commission_amount + q.net_amount = q.amount
          ∧ q.report_id = rid := by
  rw [apiAddPayment]
  split
  · split
    · rename_i m hm
      refine ⟨_, _, rfl, ?_⟩
      intro q hq
      simp only [List.mem_singleton] at hq
      subst hq
      exact ⟨by ring, rfl⟩
    · exact ⟨[], db.next_payment_id, by simp, by simp⟩
  · exact ⟨[], db.next_payment_id, by simp, by simp⟩

theorem payments_foldl_shape (rid : Nat) (l : List PaymentEntry) :
    ∀ db : DB, ∃ rows n, l.foldl (apiAddPayment rid) db =
      { db with report_payments := db.report_payments ++ rows,
                next_payment_id := n }
      ∧ ∀ q ∈ rows, q.commission_amount + q.net_amount = q.amount
          ∧ q.report_id = rid := by
  induction l with
  | nil =>
    intro db
    exact ⟨[], db.next_payment_id, by simp, by simp⟩
  | cons p t ih =>
    intro db
    obtain ⟨rows1, n1, h1, hp1⟩ := apiAddPayment_shape rid db p
    obtain ⟨rows2, n2, h2, hp2⟩ := ih (apiAddPayment rid db p)
    refine ⟨rows1 ++ rows2, n2, ?_, ?_⟩
    · rw [List.foldl_cons, h2, h1]
      simp [List.append_assoc]
    · intro q hq
      rcases List.mem_append.mp hq with hq | hq
      · exact hp1 q hq
      · exact hp2 q hq

theorem apiAddExpense_shape (rid : Nat) (db : DB) (e : ExpenseEntry) :
    ∃ rows n, apiAddExpense rid db e =
      { db with report_expenses := db.report_expenses ++ rows,
                next_expense_id := n } := by
  rw [apiAddExpense]
  split
  · exact ⟨_, _, rfl⟩
  · exact ⟨[], db.next_expense_id, by simp⟩

theorem expenses_foldl_shape (rid : Nat) (l : List ExpenseEntry) :
    ∀ db : DB, ∃ rows n, l.foldl (apiAddExpense rid) db =
      { db with report_expenses := db.report_expenses ++ rows,
                next_expense_id := n } := by
  induction l with
  | nil =>
    intro db
    exact ⟨[], db.next_expense_id, by simp⟩
  | cons e t ih =>
    intro db
    obtain ⟨rows1, n1, h1⟩ := apiAddExpense_shape rid db e
    obtain ⟨rows2, n2, h2⟩ := ih (apiAddExpense rid db e)
    refine ⟨rows1 ++ rows2, n2, ?_⟩
    rw [List.foldl_cons, h2, h1]
    simp [List.append_assoc]

theorem apiAddIncome_shape (rid : Nat) (db : DB) (i : IncomeEntry) :
    ∃ rows n, apiAddIncome rid db i =
      { db with non_sales_income := db.non_sales_income ++ rows,
                next_income_id := n } := by
  rw [apiAddIncome]
  split
  · exact ⟨_, _, rfl⟩
  · exact ⟨[], db.next_income_id, by simp⟩

theorem incomes_foldl_shape (rid : Nat) (l : List IncomeEntry) :
    ∀ db : DB, ∃ rows n, l.foldl (apiAddIncome rid) db =
      { db with non_sales_income := db.non_sales_income ++ rows,
                next_income_id := n } := by
  induction l with
  | nil =>
    intro db
    exact ⟨[], db.next_income_id, by simp⟩
  | cons i t ih =>
    intro db
    obtain ⟨rows1, n1, h1⟩ := apiAddIncome_shape rid db i
    obtain ⟨rows2, n2, h2⟩ := ih (apiAddIncome rid db i)
    refine ⟨rows1 ++ rows2, n2, ?_⟩
    rw [List.foldl_cons, h2, h1]
    simp [List.append_assoc]

/-! ### Preservation of the invariants by every operation -/

theorem inv_initDB : Inv initDB := by
  refine ⟨?_, ?_, ?_, ?_, ?_, ?_⟩ <;> simp [initDB, pairKey]

theorem inv_set_lines {db : DB} (h : Inv db) (x : List NonSalesIncome)
    (y : List ReportExpense) (n m : Nat) :
    Inv { db with non_sales_income := x, next_income_id := n,
                  report_expenses := y, next_expense_id := m } :=
  ⟨h.pairs_nodup, h.report_id_lt, h.cash_diff, h.payment_sum,
    h.account_id_nodup, h.account_id_lt⟩

theorem inv_set_methods {db : DB} (h : Inv db) (x : List PaymentMethod)
    (n : Nat) :
    Inv { db with payment_methods := x, next_method_id := n } :=
  ⟨h.pairs_nodup, h.report_id_lt, h.cash_diff, h.payment_sum,
    h.account_id_nodup, h.account_id_lt⟩

theorem inv_set_locations {db : DB} (h : Inv db) (x : List SalesLocation)
    (n : Nat) :
    Inv { db with locations := x, next_location_id := n } :=
  ⟨h.pairs_nodup, h.report_id_lt, h.cash_diff, h.payment_sum,
    h.account_id_nodup, h.account_id_lt⟩

theorem inv_extend_payments {db : DB} (h : Inv db)
    (rows : List ReportPayment) (n : Nat)
    (hrows : ∀ q ∈ rows, q.commission_amount + q.net_amount = q.amount) :
    Inv { db with report_payments := db.report_payments ++ rows,
                  next_payment_id := n } := by
  refine ⟨h.pairs_nodup, h.report_id_lt, h.cash_diff, ?_,
    h.account_id_nodup, h.account_id_lt⟩
  intro q hq
  rcases List.mem_append.mp hq with hq | hq
  · exact h.payment_sum q hq
  · exact hrows q hq

theorem inv_account_map {db : DB} (h : Inv db) (f : Account → Account)
    (hid : ∀ a, (f a).id = a.id) :
    Inv { db with accounts := db.accounts.map f } := by
  refine ⟨h.pairs_nodup, h.report_id_lt, h.cash_diff, h.payment_sum,
    ?_, ?_⟩
  · have : (db.accounts.map f).map Account.id = db.accounts.map Account.id := by
      rw [List.map_map]
      exact List.map_congr_left fun a _ => hid a
    rw [this]
    exact h.account_id_nodup
  · intro a ha
    obtain ⟨b, hb, rfl⟩ := List.mem_map.mp ha
    rw [hid b]
    exact h.account_id_lt b hb

theorem inv_add_account {db : DB} (h : Inv db) (name : String)
    (t : AccountType) :
    Inv (add_account db name t).1 := by
  refine ⟨h.pairs_nodup, h.report_id_lt, h.cash_diff, h.payment_sum,
    ?_, ?_⟩
  · rw [add_account]
    simp only [List.map_append, List.map_cons, List.map_nil]
    rw [List.nodup_append]
    refine ⟨h.account_id_nodup, List.nodup_singleton _, ?_⟩
    intro x hx hx2
    simp only [List.mem_singleton] at hx2
    subst hx2
    obtain ⟨a, ha, haid⟩ := List.mem_map.mp hx
    exact absurd haid (Nat.ne_of_lt (h.account_id_lt a ha))
  · rw [add_account]
    intro a ha
    rcases List.mem_append.mp ha with ha | ha
    · exact Nat.lt_succ_of_lt (h.account_id_lt a ha)
    · simp only [List.mem_singleton] at ha
      subst ha
      exact Nat.lt_succ_self _

theorem inv_daily_map {db : DB} (h : Inv db) (f : DailyReport → DailyReport)
    (hpair : ∀ r, pairKey (f r) = pairKey r)
    (hid : ∀ r, (f r).id = r.id)
    (hcash : ∀ r ∈ db.daily_reports, ∀ e a,
      (f r).cash_expected = some e → (f r).cash_actual = some a →
        (f r).cash_difference = some (a - e)) :
    Inv { db with daily_reports := db.daily_reports.map f } := by
  refine ⟨?_, ?_, ?_, h.payment_sum, h.account_id_nodup, h.account_id_lt⟩
  · have : (db.daily_reports.map f).map pairKey
        = db.daily_reports.map pairKey := by
      rw [List.map_map]
      exact List.map_congr_left fun r _ => hpair r
    rw [this]
    exact h.pairs_nodup
  · intro r hr
    obtain ⟨r0, hr0, rfl⟩ := List.mem_map.mp hr
    rw [hid r0]
    exact h.report_id_lt r0 hr0
  · intro r hr
    obtain ⟨r0, hr0, rfl⟩ := List.mem_map.mp hr
    exact hcash r0 hr0

theorem inv_insert_report {db : DB} (h : Inv db) (d loc : Nat)
    (total : ℚ) (b : Option String)
    (hfresh : db.daily_reports.any
      (fun r => r.report_date = d ∧ r.location_id = loc) = false) :
    Inv { db with
            daily_reports := db.daily_reports ++
              [{ id := db.next_report_id, report_date := d,
                 location_id := loc, total_sales := total,
                 cash_expected := none, cash_actual := none,
                 cash_difference := none, cash_breakdown := none,
                 status := Status.opened, created_by := b,
                 closed_at := none }],
            next_report_id := db.next_report_id + 1 } := by
  refine ⟨?_, ?_, ?_, h.payment_sum, h.account_id_nodup, h.account_id_lt⟩
  · simp only [List.map_append, List.map_cons, List.map_nil]
    rw [List.nodup_append]
    refine ⟨h.pairs_nodup, List.nodup_singleton _, ?_⟩
    intro x hx hx2
    simp only [List.mem_singleton] at hx2
    subst hx2
    obtain ⟨r, hr, hrk⟩ := List.mem_map.mp hx
    have := List.any_eq_false.mp hfresh r hr
    simp only [decide_eq_true_eq, not_and] at this
    rw [pairKey] at hrk
    have hd : r.report_date = d := congrArg Prod.fst hrk
    have hl : r.location_id = loc := congrArg Prod.snd hrk
    exact this hd hl
  · intro r hr
    rcases List.mem_append.mp hr with hr | hr
    · exact Nat.lt_succ_of_lt (h.report_id_lt r hr)
    · simp only [List.mem_singleton] at hr
      subst hr
      exact Nat.lt_succ_self _
  · intro r hr
    rcases List.mem_append.mp hr with hr | hr
    · exact h.cash_diff r hr
    · simp only [List.mem_singleton] at hr
      subst hr
      intro e a he
      cases he

theorem inv_create_daily_report {db : DB} (h : Inv db) (d loc : Nat)
    (total : ℚ) (b : Option String) (db2 : DB) (rid : Nat)
    (hok : create_daily_report db d loc total b = .ok (db2, rid)) :
    Inv db2 := by
  rw [create_daily_report] at hok
  split at hok
  · cases hok
  · rename_i hfresh
    cases hok
    exact inv_insert_report h d loc total b (by
      exact Bool.of_not_eq_true hfresh)

theorem inv_update_report_cash {db : DB} (h : Inv db) (rid : Nat)
    (e a : ℚ) (bd : String) :
    Inv (update_report_cash db rid e a bd) := by
  rw [update_report_cash]
  refine inv_daily_map h _ ?_ ?_ ?_
  · intro r
    split <;> rfl
  · intro r
    split <;> rfl
  · intro r hr e2 a2 he2 ha2
    by_cases hid : r.id = rid
    · simp only [if_pos hid] at he2 ha2 ⊢
      cases he2
      cases ha2
      rfl
    · simp only [if_neg hid] at he2 ha2 ⊢
      exact h.cash_diff r hr e2 a2 he2 ha2

theorem inv_close_report {db : DB} (h : Inv db) (rid now : Nat) :
    Inv (close_report db rid now) := by
  rw [close_report]
  refine inv_daily_map h _ ?_ ?_ ?_
  · intro r
    split <;> rfl
  · intro r
    split <;> rfl
  · intro r hr e2 a2 he2 ha2
    by_cases hid : r.id = rid
    · simp only [if_pos hid] at he2 ha2 ⊢
      exact h.cash_diff r hr e2 a2 he2 ha2
    · simp only [if_neg hid] at he2 ha2 ⊢
      exact h.cash_diff r hr e2 a2 he2 ha2

theorem create_daily_report_ok {db db2 : DB} {d loc rid : Nat}
    {total : ℚ} {b : Option String}
    (hok : create_daily_report db d loc total b = .ok (db2, rid)) :
    rid = db.next_report_id
    ∧ db2 = { db with
        daily_reports := db.daily_reports ++
          [{ id := db.next_report_id, report_date := d,
             location_id := loc, total_sales := total,
             cash_expected := none, cash_actual := none,
             cash_difference := none, cash_breakdown := none,
             status := Status.opened, created_by := b,
             closed_at := none }],
        next_report_id := db.next_report_id + 1 }
    ∧ db.daily_reports.any
        (fun r => r.report_date = d ∧ r.location_id = loc) = false := by
  rw [create_daily_report] at hok
  split at hok
  · cases hok
  · rename_i hm
    cases hok
    exact ⟨rfl, rfl, Bool.of_not_eq_true hm⟩

theorem inv_apiCloseUpdate_fresh {db : DB} (h : Inv db) (rid : Nat)
    (v : ℚ)
    (hfresh : ∀ r ∈ db.daily_reports, r.id = rid →
      r.cash_expected = none) :
    Inv (apiCloseUpdate db rid v) := by
  rw [apiCloseUpdate]
  refine inv_daily_map h _ (fun r => by split <;> rfl)
    (fun r => by split <;> rfl) ?_
  intro r hr e2 a2 he2 ha2
  by_cases hid : r.id = rid
  · simp only [if_pos hid] at he2
    rw [hfresh r hr hid] at he2
    cases he2
  · simp only [if_neg hid] at he2 ha2 ⊢
    exact h.cash_diff r hr e2 a2 he2 ha2

theorem inv_api_create_report {db : DB} (h : Inv db)
    (req : CreateReportRequest) :
    Inv (api_create_report db req).1 := by
  rw [api_create_report]
  cases hg : get_daily_report db req.report_date req.location_id with
  | some r => exact h
  | none =>
    cases hc : create_daily_report db req.report_date req.location_id
        req.total_sales (some req.created_by) with
    | error e => exact h
    | ok pr =>
      obtain ⟨db1, rid⟩ := pr
      obtain ⟨hrid, hdb1, hfresh0⟩ := create_daily_report_ok hc
      obtain ⟨rowsP, nP, h2, hP⟩ :=
        payments_foldl_shape rid req.payments db1
      obtain ⟨rowsE, nE, h3⟩ := expenses_foldl_shape rid req.expenses
        (req.payments.foldl (apiAddPayment rid) db1)
      obtain ⟨rowsI, nI, h4⟩ := incomes_foldl_shape rid req.incomes
        (req.expenses.foldl (apiAddExpense rid)
          (req.payments.foldl (apiAddPayment rid) db1))
      have hinv1 : Inv db1 :=
        inv_create_daily_report h _ _ _ _ db1 rid hc
      have hinv2 : Inv (req.payments.foldl (apiAddPayment rid) db1) := by
        rw [h2]
        exact inv_extend_payments hinv1 rowsP nP fun q hq => (hP q hq).1
      have hinv3 : Inv (req.expenses.foldl (apiAddExpense rid)
          (req.payments.foldl (apiAddPayment rid) db1)) := by
        rw [h3]
        exact inv_set_lines hinv2 _ _ _ _
      have hinv4 : Inv (req.incomes.foldl (apiAddIncome rid)
          (req.expenses.foldl (apiAddExpense rid)
            (req.payments.foldl (apiAddPayment rid) db1))) := by
        rw [h4]
        exact inv_set_lines hinv3 _ _ _ _
      have hreports : (req.incomes.foldl (apiAddIncome rid)
          (req.expenses.foldl (apiAddExpense rid)
            (req.payments.foldl (apiAddPayment rid) db1))).daily_reports
          = db1.daily_reports := by
        rw [h4, h3, h2]
      have hfresh : ∀ r ∈ (req.incomes.foldl (apiAddIncome rid)
          (req.expenses.foldl (apiAddExpense rid)
            (req.payments.foldl (apiAddPayment rid) db1))).daily_reports,
          r.id = rid → r.cash_expected = none := by
        rw [hreports, hdb1]
        intro r hr hid
        rcases List.mem_append.mp hr with hr | hr
        · exfalso
          have := h.report_id_lt r hr
          rw [hid, hrid] at this
          exact Nat.lt_irrefl _ this
        · simp only [List.mem_singleton] at hr
          subst hr
          rfl
      simp only
      split
      · exact inv_apiCloseUpdate_fresh hinv4 rid req.cash_actual hfresh
      · exact hinv4

theorem inv_applyOp {db : DB} (h : Inv db) (op : Op) :
    Inv (applyOp db op) := by
  cases op with
  | apiCreateReport req => exact inv_api_create_report h req
  | createDailyReport d loc total b =>
    rw [applyOp]
    cases hc : create_daily_report db d loc total b with
    | ok pr =>
      obtain ⟨db2, rid⟩ := pr
      exact inv_create_daily_report h d loc total b db2 rid hc
    | error e => exact h
  | addReportPayment rid mid aid amount =>
    refine ⟨h.pairs_nodup, h.report_id_lt, h.cash_diff, ?_,
      h.account_id_nodup, h.account_id_lt⟩
    intro q hq
    rcases add_report_payment_rows db rid mid aid amount q hq with hq2 | hq2
    · exact h.payment_sum q hq2
    · rw [hq2.2.2.1]
      exact hq2.2.1
  | addNonSalesIncome rid aid amount cat dsc =>
    exact inv_set_lines h _ _ _ _
  | addReportExpense rid aid amount cat dsc =>
    exact inv_set_lines h _ _ _ _
  | updateReportCash rid e a bd => exact inv_update_report_cash h rid e a bd
  | closeReport rid now => exact inv_close_report h rid now
  | addAccount name t => exact inv_add_account h name t
  | updateAccount aid name t act =>
    rw [applyOp, update_account]
    exact inv_account_map h _ fun a => by split <;> rfl
  | deleteAccount aid =>
    rw [applyOp, delete_account]
    exact inv_account_map h _ fun a => by split <;> rfl
  | addPaymentMethod name com aid => exact inv_set_methods h _ _
  | updatePaymentMethod mid name com aid act => exact inv_set_methods h _ _
  | deletePaymentMethod mid => exact inv_set_methods h _ _
  | toggleMethodVisibility mid vis => exact inv_set_methods h _ _
  | setMethodOrder mid ord => exact inv_set_methods h _ _
  | addLocation name addr => exact inv_set_locations h _ _
  | updateLocation lid name addr act => exact inv_set_locations h _ _
  | deleteLocation lid => exact inv_set_locations h _ _

theorem inv_foldl (ops : List Op) :
    ∀ db : DB, Inv db → Inv (ops.foldl applyOp db) := by
  induction ops with
  | nil => exact fun db h => h
  | cons op t ih =>
    intro db h
    rw [List.foldl_cons]
    exact ih (applyOp db op) (inv_applyOp h op)

theorem reachable_inv {db : DB} (h : Reachable db) : Inv db := by
  obtain ⟨ops, rfl⟩ := h
  exact inv_foldl ops initDB inv_initDB

/-! ### Claims about the report lifecycle -/

/-- C3: in every reachable state every stored payment row satisfies
commission_amount + net_amount = amount, and a row inserted by
add_report_payment carries commission_amount = amount * (commission
percent of the method at insertion time, 0 when the method is missing)
/ 100 with commission_amount + net_amount = amount. -/
theorem C3_commission_netting (db : DB) (h : Reachable db)
    (rid mid aid : Nat) (amount : ℚ) :
    (∀ p ∈ db.report_payments,
      p.commission_amount + p.net_amount = p.amount)
    ∧ ∀ q ∈ (add_report_payment db rid mid aid amount).1.report_payments,
        q ∈ db.report_payments
        ∨ (q.commission_amount = amount * (methodCommission db mid / 100)
          ∧ q.commission_amount + q.net_amount = amount
          ∧ q.amount = amount) := by
  refine ⟨(reachable_inv h).payment_sum, ?_⟩
  intro q hq
  rcases add_report_payment_rows db rid mid aid amount q hq with h1 | h1
  · exact Or.inl h1
  · exact Or.inr ⟨h1.1, h1.2.1, h1.2.2.1⟩

/-- Witness for C3 on the sample state. -/
theorem C3_commission_netting_witness :
    Reachable sampleDB
    ∧ ((∀ p ∈ sampleDB.report_payments,
        p.commission_amount + p.net_amount = p.amount)
      ∧ ∀ q ∈ (add_report_payment sampleDB 1 7 1 10).1.report_payments,
          q ∈ sampleDB.report_payments
          ∨ (q.commission_amount = 10 * (methodCommission sampleDB 7 / 100)
            ∧ q.commission_amount + q.net_amount = 10
            ∧ q.amount = 10)) :=
  ⟨⟨sampleOps, rfl⟩,
    C3_commission_netting sampleDB ⟨sampleOps, rfl⟩ 1 7 1 10⟩

/-- C5, corrected: every reachable state holds at most one report per
(date, location) pair, and a second create_report call for a pair that
already has a report leaves the state unchanged and fails - with the
duplicate-report error when the location id exists in the locations
table, but with a generic server error when it does not, because the
duplicate check joins locations and then the UNIQUE constraint aborts
the insert. -/
theorem C5_unique_report_per_pair (db : DB) (h : Reachable db)
    (req : CreateReportRequest) :
    (db.daily_reports.map pairKey).Nodup
    ∧ (db.daily_reports.any (fun r => r.report_date = req.report_date
          ∧ r.location_id = req.location_id) = true →
        api_create_report db req =
          (db, if db.locations.any (fun l => l.id = req.location_id)
            then ApiResult.duplicateReportError
            else ApiResult.serverError)) := by
  refine ⟨(reachable_inv h).pairs_nodup, ?_⟩
  intro hex
  rw [api_create_report]
  cases hl : db.locations.any (fun l => l.id = req.location_id) with
  | true =>
    obtain ⟨r, hr⟩ := Option.isSome_iff_exists.mp
      (List.find?_isSome.mpr (List.any_eq_true.mp hex))
    rw [get_daily_report, hr]
    simp [Option.filter, hl]
  | false =>
    rw [get_daily_report]
    cases hfind : db.daily_reports.find?
        (fun r => r.report_date = req.report_date
          ∧ r.location_id = req.location_id) with
    | none =>
      simp only [Option.filter, hl]
      rw [create_daily_report]
      rw [if_pos hex]
      simp
    | some r =>
      simp only [Option.filter, hl, Bool.false_eq_true, if_false]
      rw [create_daily_report]
      rw [if_pos hex]

/-- Witness for C5 on the sample state and a duplicate request. -/
theorem C5_unique_report_per_pair_witness :
    (Reachable sampleDB
      ∧ sampleDB.daily_reports.any
          (fun r => r.report_date = dupReq.report_date
            ∧ r.location_id = dupReq.location_id) = true)
    ∧ ((sampleDB.daily_reports.map pairKey).Nodup
      ∧ (sampleDB.daily_reports.any
          (fun r => r.report_date = dupReq.report_date
            ∧ r.location_id = dupReq.location_id) = true →
          api_create_report sampleDB dupReq =
            (sampleDB,
              if sampleDB.locations.any (fun l => l.id = dupReq.location_id)
              then ApiResult.duplicateReportError
              else ApiResult.serverError))) :=
  ⟨⟨⟨sampleOps, rfl⟩, by decide⟩,
    C5_unique_report_per_pair sampleDB ⟨sampleOps, rfl⟩ dupReq⟩

/-- Counterexample to C5 as stated: a report is created at a location
id absent from the locations table; the second identical request then
fails with the generic server error, not with the duplicate-report
error, although a report for the pair exists. -/
theorem C5_counterexample :
    (orphanDB.daily_reports.map
        (fun r => (r.report_date, r.location_id))) = [(7, 99)]
    ∧ api_create_report orphanDB orphanReq = (orphanDB, ApiResult.serverError)
    ∧ ApiResult.serverError ≠ ApiResult.duplicateReportError := by
  refine ⟨by decide, by decide, by decide⟩

/-- C8: in every reachable state, every report with both cash_expected
and cash_actual set satisfies cash_difference = cash_actual -
cash_expected; update_report_cash establishes exactly this on the
updated report. -/
theorem C8_cash_difference (db : DB) (h : Reachable db) (rid : Nat)
    (e a : ℚ) (bd : String) :
    (∀ r ∈ db.daily_reports, ∀ e2 a2, r.cash_expected = some e2 →
        r.cash_actual = some a2 → r.cash_difference = some (a2 - e2))
    ∧ ∀ r ∈ (update_report_cash db rid e a bd).daily_reports,
        r.id = rid →
          r.cash_expected = some e ∧ r.cash_actual = some a
          ∧ r.cash_difference = some (a - e) := by
  refine ⟨(reachable_inv h).cash_diff, ?_⟩
  intro r hr hid
  rw [update_report_cash] at hr
  obtain ⟨r0, hr0, rfl⟩ := List.mem_map.mp hr
  by_cases h0 : r0.id = rid
  · simp [if_pos h0]
  · simp only [if_neg h0] at hid ⊢
    exact absurd hid h0

/-- Witness for C8 on the sample state. -/
theorem C8_cash_difference_witness :
    Reachable sampleDB
    ∧ ((∀ r ∈ sampleDB.daily_reports, ∀ e2 a2,
        r.cash_expected = some e2 → r.cash_actual = some a2 →
          r.cash_difference = some (a2 - e2))
      ∧ ∀ r ∈ (update_report_cash sampleDB 1 350 400 "bd").daily_reports,
          r.id = 1 →
            r.cash_expected = some 350 ∧ r.cash_actual = some 400
            ∧ r.cash_difference = some (400 - 350)) :=
  ⟨⟨sampleOps, rfl⟩,
    C8_cash_difference sampleDB ⟨sampleOps, rfl⟩ 1 350 400 "bd"⟩

/-! ### Counting lemmas for the line-insertion loops -/

theorem apiAddPayment_methods (rid : Nat) (db : DB) (p : PaymentEntry) :
    (apiAddPayment rid db p).payment_methods = db.payment_methods := by
  obtain ⟨rows, n, h, -⟩ := apiAddPayment_shape rid db p
  rw [h]

theorem apiAddPayment_count (rid : Nat) (db : DB) (p : PaymentEntry) :
    (apiAddPayment rid db p).report_payments.length
      = db.report_payments.length
        + (if 0 < p.amount ∧ ((get_payment_methods db).find?
            (fun m => m.id = p.method_id)).isSome then 1 else 0) := by
  rw [apiAddPayment]
  by_cases h1 : 0 < p.amount
  · simp only [if_pos h1]
    cases hf : (get_payment_methods db).find? (fun m => m.id = p.method_id) with
    | some m => simp [add_report_payment, h1, hf]
    | none => simp [h1, hf]
  · simp [h1]

theorem payments_foldl_count (rid : Nat) (l : List PaymentEntry) :
    ∀ db : DB, (l.foldl (apiAddPayment rid) db).report_payments.length
      = db.report_payments.length
        + (l.filter (fun p => 0 < p.amount
            ∧ ((get_payment_methods db).find?
              (fun m => m.id = p.method_id)).isSome)).length := by
  induction l with
  | nil => intro db; simp
  | cons p t ih =>
    intro db
    rw [List.foldl_cons, ih (apiAddPayment rid db p)]
    have hm : get_payment_methods (apiAddPayment rid db p)
        = get_payment_methods db := by
      rw [get_payment_methods, get_payment_methods, apiAddPayment_methods]
    rw [hm, apiAddPayment_count, List.filter_cons]
    by_cases hp : 0 < p.amount ∧ ((get_payment_methods db).find?
        (fun m => m.id = p.method_id)).isSome
    · rw [if_pos (decide_eq_true hp), if_pos hp, List.length_cons]
      omega
    · rw [if_neg (fun hcontra => hp (of_decide_eq_true hcontra)), if_neg hp]
      omega

theorem apiAddExpense_count (rid : Nat) (db : DB) (e : ExpenseEntry) :
    (apiAddExpense rid db e).report_expenses.length
      = db.report_expenses.length + (if 0 < e.amount then 1 else 0) := by
  rw [apiAddExpense]
  by_cases h1 : 0 < e.amount
  · simp [add_report_expense, h1]
  · simp [h1]

theorem expenses_foldl_count (rid : Nat) (l : List ExpenseEntry) :
    ∀ db : DB, (l.foldl (apiAddExpense rid) db).report_expenses.length
      = db.report_expenses.length
        + (l.filter (fun e => 0 < e.amount)).length := by
  induction l with
  | nil => intro db; simp
  | cons e t ih =>
    intro db
    rw [List.foldl_cons, ih (apiAddExpense rid db e), apiAddExpense_count,
      List.filter_cons]
    by_cases hp : 0 < e.amount
    · rw [if_pos (decide_eq_true hp), if_pos hp, List.length_cons]
      omega
    · rw [if_neg (fun hcontra => hp (of_decide_eq_true hcontra)), if_neg hp]
      omega

theorem apiAddIncome_count (rid : Nat) (db : DB) (i : IncomeEntry) :
    (apiAddIncome rid db i).non_sales_income.length
      = db.non_sales_income.length + (if 0 < i.amount then 1 else 0) := by
  rw [apiAddIncome]
  by_cases h1 : 0 < i.amount
  · simp [add_non_sales_income, h1]
  · simp [h1]

theorem incomes_foldl_count (rid : Nat) (l : List IncomeEntry) :
    ∀ db : DB, (l.foldl (apiAddIncome rid) db).non_sales_income.length
      = db.non_sales_income.length
        + (l.filter (fun i => 0 < i.amount)).length := by
  induction l with
  | nil => intro db; simp
  | cons i t ih =>
    intro db
    rw [List.foldl_cons, ih (apiAddIncome rid db i), apiAddIncome_count,
      List.filter_cons]
    by_cases hp : 0 < i.amount
    · rw [if_pos (decide_eq_true hp), if_pos hp, List.length_cons]
      omega
    · rw [if_neg (fun hcontra => hp (of_decide_eq_true hcontra)), if_neg hp]
      omega

theorem api_loops_counts (db1 : DB) (rid : Nat)
    (req : CreateReportRequest) :
    (if 0 < req.cash_actual then
        apiCloseUpdate (req.incomes.foldl (apiAddIncome rid)
          (req.expenses.foldl (apiAddExpense rid)
            (req.payments.foldl (apiAddPayment rid) db1))) rid
          req.cash_actual
      else req.incomes.foldl (apiAddIncome rid)
        (req.expenses.foldl (apiAddExpense rid)
          (req.payments.foldl (apiAddPayment rid) db1))).report_payments.length
      = db1.report_payments.length + (req.payments.filter (fun p =>
          0 < p.amount ∧ ((get_payment_methods db1).find?
            (fun m => m.id = p.method_id)).isSome)).length
    ∧ (if 0 < req.cash_actual then
        apiCloseUpdate (req.incomes.foldl (apiAddIncome rid)
          (req.expenses.foldl (apiAddExpense rid)
            (req.payments.foldl (apiAddPayment rid) db1))) rid
          req.cash_actual
      else req.incomes.foldl (apiAddIncome rid)
        (req.expenses.foldl (apiAddExpense rid)
          (req.payments.foldl (apiAddPayment rid) db1))).report_expenses.length
      = db1.report_expenses.length
        + (req.expenses.filter (fun e => 0 < e.amount)).length
    ∧ (if 0 < req.cash_actual then
        apiCloseUpdate (req.incomes.foldl (apiAddIncome rid)
          (req.expenses.foldl (apiAddExpense rid)
            (req.payments.foldl (apiAddPayment rid) db1))) rid
          req.cash_actual
      else req.incomes.foldl (apiAddIncome rid)
        (req.expenses.foldl (apiAddExpense rid)
          (req.payments.foldl (apiAddPayment rid) db1))).non_sales_income.length
      = db1.non_sales_income.length
        + (req.incomes.filter (fun i => 0 < i.amount)).length := by
  obtain ⟨rowsP, nP, h2, -⟩ := payments_foldl_shape rid req.payments db1
  obtain ⟨rowsE, nE, h3⟩ := expenses_foldl_shape rid req.expenses
    (req.payments.foldl (apiAddPayment rid) db1)
  obtain ⟨rowsI, nI, h4⟩ := incomes_foldl_shape rid req.incomes
    (req.expenses.foldl (apiAddExpense rid)
      (req.payments.foldl (apiAddPayment rid) db1))
  have hFp : ∀ X : DB, (if 0 < req.cash_actual then
      apiCloseUpdate X rid req.cash_actual else X).report_payments
      = X.report_payments := fun X => by split <;> rfl
  have hFe : ∀ X : DB, (if 0 < req.cash_actual then
      apiCloseUpdate X rid req.cash_actual else X).report_expenses
      = X.report_expenses := fun X => by split <;> rfl
  have hFi : ∀ X : DB, (if 0 < req.cash_actual then
      apiCloseUpdate X rid req.cash_actual else X).non_sales_income
      = X.non_sales_income := fun X => by split <;> rfl
  have hIp : (req.incomes.foldl (apiAddIncome rid)
      (req.expenses.foldl (apiAddExpense rid)
        (req.payments.foldl (apiAddPayment rid) db1))).report_payments
      = (req.expenses.foldl (apiAddExpense rid)
        (req.payments.foldl (apiAddPayment rid) db1)).report_payments := by
    rw [h4]
  have hEp : (req.expenses.foldl (apiAddExpense rid)
      (req.payments.foldl (apiAddPayment rid) db1)).report_payments
      = (req.payments.foldl (apiAddPayment rid) db1).report_payments := by
    rw [h3]
  have hIe : (req.incomes.foldl (apiAddIncome rid)
      (req.expenses.foldl (apiAddExpense rid)
        (req.payments.foldl (apiAddPayment rid) db1))).report_expenses
      = (req.expenses.foldl (apiAddExpense rid)
        (req.payments.foldl (apiAddPayment rid) db1)).report_expenses := by
    rw [h4]
  have hPe : (req.payments.foldl (apiAddPayment rid) db1).report_expenses
      = db1.report_expenses := by
    rw [h2]
  have hEi : (req.expenses.foldl (apiAddExpense rid)
      (req.payments.foldl (apiAddPayment rid) db1)).non_sales_income
      = (req.payments.foldl (apiAddPayment rid) db1).non_sales_income := by
    rw [h3]
  have hPi : (req.payments.foldl (apiAddPayment rid) db1).non_sales_income
      = db1.non_sales_income := by
    rw [h2]
  refine ⟨?_, ?_, ?_⟩
  · rw [hFp, hIp, hEp, payments_foldl_count]
  · rw [hFe, hIe]
    rw [expenses_foldl_count rid req.expenses
      (req.payments.foldl (apiAddPayment rid) db1), hPe]
  · rw [hFi]
    rw [incomes_foldl_count rid req.incomes
      (req.expenses.foldl (apiAddExpense rid)
        (req.payments.foldl (apiAddPayment rid) db1)), hEi, hPi]

/-- C6, corrected: in the report-creation flow, every expense or income
entry with amount at most 0 is silently skipped while those with
positive amount are inserted, and no error is raised; a payment entry,
however, is inserted only when its amount is positive AND its method id
matches an active payment method - a positive payment with an unknown
or inactive method id is silently skipped as well. -/
theorem C6_nonpositive_lines_skipped (db : DB) (req : CreateReportRequest)
    (hg : get_daily_report db req.report_date req.location_id = none)
    (hfresh : db.daily_reports.any (fun r =>
      r.report_date = req.report_date
      ∧ r.location_id = req.location_id) = false) :
    (api_create_report db req).2 = ApiResult.ok db.next_report_id
    ∧ (api_create_report db req).1.report_payments.length
        = db.report_payments.length + (req.payments.filter (fun p =>
            0 < p.amount ∧ ((get_payment_methods db).find?
              (fun m => m.id = p.method_id)).isSome)).length
    ∧ (api_create_report db req).1.report_expenses.length
        = db.report_expenses.length
          + (req.expenses.filter (fun e => 0 < e.amount)).length
    ∧ (api_create_report db req).1.non_sales_income.length
        = db.non_sales_income.length
          + (req.incomes.filter (fun i => 0 < i.amount)).length := by
  rw [api_create_report, hg, create_daily_report,
    if_neg (fun hc => absurd hc (by rw [hfresh]; exact Bool.false_ne_true))]
  exact ⟨rfl, (api_loops_counts _ db.next_report_id req).1,
    (api_loops_counts _ db.next_report_id req).2.1,
    (api_loops_counts _ db.next_report_id req).2.2⟩

/-- Witness for C6 on payDB and a mixed request: among the three
payments only the one with positive amount and a known method is
inserted; the zero expense and the negative income are skipped. -/
theorem C6_nonpositive_lines_skipped_witness :
    (get_daily_report payDB mixedReq.report_date mixedReq.location_id = none
      ∧ payDB.daily_reports.any (fun r =>
          r.report_date = mixedReq.report_date
          ∧ r.location_id = mixedReq.location_id) = false)
    ∧ ((api_create_report payDB mixedReq).2
        = ApiResult.ok payDB.next_report_id
      ∧ (api_create_report payDB mixedReq).1.report_payments.length
          = payDB.report_payments.length + (mixedReq.payments.filter (fun p =>
              0 < p.amount ∧ ((get_payment_methods payDB).find?
                (fun m => m.id = p.method_id)).isSome)).length
      ∧ (api_create_report payDB mixedReq).1.report_expenses.length
          = payDB.report_expenses.length
            + (mixedReq.expenses.filter (fun e => 0 < e.amount)).length
      ∧ (api_create_report payDB mixedReq).1.non_sales_income.length
          = payDB.non_sales_income.length
            + (mixedReq.incomes.filter (fun i => 0 < i.amount)).length) :=
  ⟨⟨by decide, by decide⟩,
    C6_nonpositive_lines_skipped payDB mixedReq (by decide) (by decide)⟩

/-- Counterexample to C6 as stated: a payment entry with amount 100 > 0
whose method id matches no payment method is silently skipped - the
request succeeds and no payment row is inserted, although the claim
says every entry with positive amount is inserted. -/
theorem C6_counterexample :
    (api_create_report initDB missingMethodReq).1.report_payments = []
    ∧ (api_create_report initDB missingMethodReq).2 = ApiResult.ok 1
    ∧ missingMethodReq.payments = [{ method_id := 1, amount := 100 }]
    ∧ (0:ℚ) < 100 := by
  refine ⟨by decide, by decide, by decide, by decide⟩

/-- C7, corrected: the close-with-cash flow of the API (the only close
path that takes cashActual) sets cash_actual and status to closed on
the targeted report and leaves cash_expected, cash_difference AND
closed_at unchanged - no closed_at timestamp is recorded there; the
separate database-level close_report sets status to closed and records
closed_at but does not touch cash_actual, cash_expected or
cash_difference.  Reports other than the targeted one are unchanged by
both. -/
theorem C7_close_frame (db : DB) (rid : Nat) (v : ℚ) (now : Nat) :
    List.Forall₂ (fun r r2 =>
        r2.id = r.id
        ∧ r2.cash_expected = r.cash_expected
        ∧ r2.cash_difference = r.cash_difference
        ∧ r2.closed_at = r.closed_at
        ∧ (r.id = rid → r2.status = Status.closed ∧ r2.cash_actual = some v)
        ∧ (¬ r.id = rid → r2 = r))
      db.daily_reports (apiCloseUpdate db rid v).daily_reports
    ∧ List.Forall₂ (fun r r2 =>
        r2.id = r.id
        ∧ r2.cash_expected = r.cash_expected
        ∧ r2.cash_actual = r.cash_actual
        ∧ r2.cash_difference = r.cash_difference
        ∧ (r.id = rid → r2.status = Status.closed ∧ r2.closed_at = some now)
        ∧ (¬ r.id = rid → r2 = r))
      db.daily_reports (close_report db rid now).daily_reports := by
  constructor
  · rw [apiCloseUpdate, List.forall₂_map_right_iff, List.forall₂_same]
    intro r hr
    by_cases h0 : r.id = rid
    · simp [h0]
    · simp [h0]
  · rw [close_report, List.forall₂_map_right_iff, List.forall₂_same]
    intro r hr
    by_cases h0 : r.id = rid
    · simp [h0]
    · simp [h0]

/-- Witness for C7 on the sample state. -/
theorem C7_close_frame_witness :
    List.Forall₂ (fun r r2 =>
        r2.id = r.id
        ∧ r2.cash_expected = r.cash_expected
        ∧ r2.cash_difference = r.cash_difference
        ∧ r2.closed_at = r.closed_at
        ∧ (r.id = 1 → r2.status = Status.closed ∧ r2.cash_actual = some 777)
        ∧ (¬ r.id = 1 → r2 = r))
      sampleDB.daily_reports (apiCloseUpdate sampleDB 1 777).daily_reports
    ∧ List.Forall₂ (fun r r2 =>
        r2.id = r.id
        ∧ r2.cash_expected = r.cash_expected
        ∧ r2.cash_actual = r.cash_actual
        ∧ r2.cash_difference = r.cash_difference
        ∧ (r.id = 1 → r2.status = Status.closed ∧ r2.closed_at = some 55)
        ∧ (¬ r.id = 1 → r2 = r))
      sampleDB.daily_reports (close_report sampleDB 1 55).daily_reports :=
  C7_close_frame sampleDB 1 777 55

/-- Counterexample to C7 as stated: the report of payDB was closed by
the API close flow (status closed, cash_actual recorded), yet its
closed_at is still NULL, contradicting the closed_at-timestamp part of
the claim. -/
theorem C7_counterexample :
    payDB.daily_reports.map (fun r => (r.id, r.status, r.cash_actual, r.closed_at))
      = [(1, Status.closed, some (400:ℚ), (none : Option Nat))] := by
  decide

end FinanceV5
